import Mathlib

/-!
Shallow embedding of the `dead_mans_switch` Anchor program (src/lib.rs).

Timestamps and intervals are `i64` in the source; here they are `Int`, with
overflow made explicit through `checkedAdd`, which models Rust's
`i64::checked_add` (returns `none` exactly when the mathematical sum falls
outside the signed 64-bit range).  The instruction handlers become pure
functions `state → inputs → Except ErrorCode (state × event)`; the Anchor
runtime reverts every account mutation when an instruction returns `Err`, so
the persisted state after a failed call is the pre-call record, which
`persist` makes explicit.  The Anchor account-validation structs (`Ping`,
`DeactivateSwitch`, `CloseSwitch`) carry a `has_one = owner` constraint
checked against the transaction signer before the handler body runs; the
`...Ix` wrappers model that layer, with `IxError.ConstraintHasOne` standing
for the framework-level constraint violation.
-/

namespace DeadMansSwitch

/-- Principal identifiers (Solana public keys) are opaque; only equality is used. -/
abbrev Pubkey := Nat

def i64Min : Int := -(2 ^ 63)

def i64Max : Int := 2 ^ 63 - 1

/-- Model of `i64::checked_add`: `none` exactly when the true sum leaves the
signed 64-bit range. -/
def checkedAdd (a b : Int) : Option Int :=
  if i64Min ≤ a + b ∧ a + b ≤ i64Max then some (a + b) else none

def MAX_PING_INTERVAL : Int := 365 * 24 * 60 * 60

def MIN_PING_INTERVAL : Int := 60

def MAX_DATA_SIZE : Nat := 512

/-- The `DeadManSwitch` account (src/lib.rs, `#[account] pub struct DeadManSwitch`).
The fixed 512-byte `encrypted_data` array is a byte list of length `MAX_DATA_SIZE`. -/
structure DeadManSwitch where
  owner : Pubkey
  last_ping : Int
  ping_interval : Int
  encrypted_data : List Nat
  data_length : Nat
  created_at : Int
  active : Bool
  bump : Nat
deriving DecidableEq, Repr

/-- The program's `ErrorCode` enum. -/
inductive ErrorCode where
  | InvalidInterval
  | DataTooLarge
  | EmptyData
  | TimeOverflow
  | InvalidSwitchId
  | Unauthorized
  | InactiveSwitch
  | ActiveSwitch
  | NotExpired
  | InvalidTimestamp
  | ArithmeticOverflow
  | AlreadyInactive
deriving DecidableEq, Repr

/-- `SwitchCreated` event (address field omitted: PDA derivation is host-level). -/
structure SwitchCreated where
  owner : Pubkey
  switch_id : Nat
  ping_interval : Int
  expiration_time : Int
  timestamp : Int
deriving DecidableEq, Repr

/-- `SwitchPinged` event. -/
structure SwitchPinged where
  owner : Pubkey
  next_required_ping : Int
  timestamp : Int
deriving DecidableEq, Repr

/-- `SwitchDeactivated` event. -/
structure SwitchDeactivated where
  timestamp : Int
deriving DecidableEq, Repr

/-- `SwitchClosed` event (`recovered_lamports` omitted: lamport accounting is host-level). -/
structure SwitchClosed where
  owner : Pubkey
  timestamp : Int
deriving DecidableEq, Repr

/-- `SwitchInfo` returned by `get_switch_info`. -/
structure SwitchInfo where
  owner : Pubkey
  expired : Bool
  last_ping : Int
  ping_interval : Int
  created_at : Int
  expiration_time : Int
  current_time : Int
deriving DecidableEq, Repr

/-- `fn is_expired(switch, current_time)`: inactive switches are never expired;
otherwise `last_ping.checked_add(ping_interval).map_or(false, |e| current_time > e)`. -/
def is_expired (switch : DeadManSwitch) (current_time : Int) : Bool :=
  if !switch.active then false
  else
    match checkedAdd switch.last_ping switch.ping_interval with
    | none => false
    | some expiration => decide (expiration < current_time)

/-- `create_switch`: validates id, interval bounds, payload size, then initializes
the account and computes the initial expiration with checked addition. `bump` is
the PDA bump supplied by the runtime (`ctx.bumps.switch`). -/
def create_switch (owner : Pubkey) (id : Nat) (ping_interval : Int)
    (encrypted_data : List Nat) (current_time : Int) (bump : Nat) :
    Except ErrorCode (DeadManSwitch × SwitchCreated) :=
  if 0 < id then
    if MIN_PING_INTERVAL ≤ ping_interval ∧ ping_interval ≤ MAX_PING_INTERVAL then
      if encrypted_data.length ≤ MAX_DATA_SIZE then
        if encrypted_data.isEmpty then .error .EmptyData
        else
          let switch : DeadManSwitch :=
            { owner := owner
              last_ping := current_time
              ping_interval := ping_interval
              encrypted_data :=
                encrypted_data ++ List.replicate (MAX_DATA_SIZE - encrypted_data.length) 0
              data_length := encrypted_data.length
              created_at := current_time
              active := true
              bump := bump }
          match checkedAdd current_time ping_interval with
          | none => .error .TimeOverflow
          | some expiration_time =>
              .ok (switch,
                { owner := owner
                  switch_id := id
                  ping_interval := ping_interval
                  expiration_time := expiration_time
                  timestamp := current_time })
      else .error .DataTooLarge
    else .error .InvalidInterval
  else .error .InvalidSwitchId

/-- `ping`: requires the switch active and `current_time > last_ping`, then sets
`last_ping := current_time` and computes the new expiration with checked addition.
As in the source, the `last_ping` write precedes the overflow check; the runtime
reverts it when the handler returns `Err`, which the `Except` result captures. -/
def ping (switch : DeadManSwitch) (current_time : Int) :
    Except ErrorCode (DeadManSwitch × SwitchPinged) :=
  if switch.active then
    if switch.last_ping < current_time then
      let updated := { switch with last_ping := current_time }
      match checkedAdd current_time switch.ping_interval with
      | none => .error .TimeOverflow
      | some new_expiration =>
          .ok (updated,
            { owner := switch.owner
              next_required_ping := new_expiration
              timestamp := current_time })
    else .error .InvalidTimestamp
  else .error .InactiveSwitch

/-- `check_expiration`: read-only wrapper over `is_expired`. -/
def check_expiration (switch : DeadManSwitch) (current_time : Int) : Bool :=
  is_expired switch current_time

/-- `get_switch_info`: read-only snapshot; `expiration_time` saturates to
`i64::MAX` on overflow (`unwrap_or(i64::MAX)`). -/
def get_switch_info (switch : DeadManSwitch) (current_time : Int) : SwitchInfo :=
  { owner := switch.owner
    expired := is_expired switch current_time
    last_ping := switch.last_ping
    ping_interval := switch.ping_interval
    created_at := switch.created_at
    expiration_time := (checkedAdd switch.last_ping switch.ping_interval).getD i64Max
    current_time := current_time }

/-- `deactivate_switch`: one-way flip of `active` to `false`. -/
def deactivate_switch (switch : DeadManSwitch) (current_time : Int) :
    Except ErrorCode (DeadManSwitch × SwitchDeactivated) :=
  if switch.active then
    .ok ({ switch with active := false }, { timestamp := current_time })
  else .error .AlreadyInactive

/-- `close_switch`: requires the switch inactive, then expired; the account is
deleted by the runtime's `close = owner` constraint on success. -/
def close_switch (switch : DeadManSwitch) (current_time : Int) :
    Except ErrorCode SwitchClosed :=
  if switch.active then .error .ActiveSwitch
  else if is_expired switch current_time then
    .ok { owner := switch.owner, timestamp := current_time }
  else .error .NotExpired

/-- Errors visible to the caller: either an Anchor account-constraint failure
(`has_one = owner` against the signer) or a program `ErrorCode`. -/
inductive IxError where
  | ConstraintHasOne
  | Program (e : ErrorCode)
deriving DecidableEq, Repr

/-- The `Ping` accounts struct has `has_one = owner` with `owner : Signer`:
the verified signer must equal `switch.owner` before the handler runs. -/
def pingIx (switch : DeadManSwitch) (caller : Pubkey) (current_time : Int) :
    Except IxError (DeadManSwitch × SwitchPinged) :=
  if switch.owner ≠ caller then .error .ConstraintHasOne
  else
    match ping switch current_time with
    | .error e => .error (.Program e)
    | .ok r => .ok r

/-- The `DeactivateSwitch` accounts struct has `has_one = owner` with `owner : Signer`. -/
def deactivateIx (switch : DeadManSwitch) (caller : Pubkey) (current_time : Int) :
    Except IxError (DeadManSwitch × SwitchDeactivated) :=
  if switch.owner ≠ caller then .error .ConstraintHasOne
  else
    match deactivate_switch switch current_time with
    | .error e => .error (.Program e)
    | .ok r => .ok r

/-- The `CloseSwitch` accounts struct has `has_one = owner` with `owner : Signer`. -/
def closeIx (switch : DeadManSwitch) (caller : Pubkey) (current_time : Int) :
    Except IxError SwitchClosed :=
  if switch.owner ≠ caller then .error .ConstraintHasOne
  else
    match close_switch switch current_time with
    | .error e => .error (.Program e)
    | .ok r => .ok r

/-- Persisted account state after a handler runs: the new record on success,
the untouched pre-call record on failure (Anchor reverts mutations on `Err`). -/
def persist {ε α : Type} (s : DeadManSwitch) (r : Except ε (DeadManSwitch × α)) :
    DeadManSwitch :=
  match r with
  | .ok (sNew, _) => sNew
  | .error _ => s

/-- A concrete record used by witnesses: active, `last_ping = 0`, `ping_interval = 60`. -/
def demoActive : DeadManSwitch :=
  { owner := 7
    last_ping := 0
    ping_interval := 60
    encrypted_data := List.replicate MAX_DATA_SIZE 0
    data_length := 1
    created_at := 0
    active := true
    bump := 255 }

/-- `demoActive` after `deactivate_switch`. -/
def demoInactive : DeadManSwitch :=
  { demoActive with active := false }

/-- An active record whose deadline `last_ping + ping_interval` overflows `i64`. -/
def demoOverflow : DeadManSwitch :=
  { demoActive with last_ping := i64Max - 30, ping_interval := 60 }

/-- An active record with the maximum representable interval. -/
def demoMaxInterval : DeadManSwitch :=
  { demoActive with ping_interval := i64Max }

/-- The record produced by `create_switch 7 1 60 [1] 0 0`. -/
def demoCreated : DeadManSwitch :=
  { owner := 7
    last_ping := 0
    ping_interval := 60
    encrypted_data := [1] ++ List.replicate (MAX_DATA_SIZE - 1) 0
    data_length := 1
    created_at := 0
    active := true
    bump := 0 }

/-- C2: for an active record whose deadline `last_ping + ping_interval` is
representable, `is_expired` is false for all `now ≤ deadline` and true for all
`now > deadline`; being a pure function of `(record, now)`, repeated queries at
the same `now` agree. -/
theorem C2_active_boundary (s : DeadManSwitch) (now d : Int)
    (hact : s.active = true)
    (hd : checkedAdd s.last_ping s.ping_interval = some d) :
    (now ≤ d → is_expired s now = false) ∧
    (d < now → is_expired s now = true) ∧
    is_expired s now = is_expired s now := by
  refine ⟨fun h => ?_, fun h => ?_, rfl⟩ <;>
    simp [is_expired, hact, hd] <;> omega

theorem C2_active_boundary_witness :
    is_expired demoActive 60 = false ∧ is_expired demoActive 61 = true :=
  ⟨(C2_active_boundary demoActive 60 60 rfl (by decide)).1 (by decide),
   (C2_active_boundary demoActive 61 60 rfl (by decide)).2.1 (by decide)⟩

/-- C3: a deactivated record is never expired, at any `now`, however far past
`last_ping + ping_interval`. -/
theorem C3_inactive_never_expired (s : DeadManSwitch) (now : Int)
    (h : s.active = false) : is_expired s now = false := by
  simp [is_expired, h]

theorem C3_inactive_never_expired_witness :
    is_expired demoInactive 1000000000000000000 = false :=
  C3_inactive_never_expired demoInactive 1000000000000000000 rfl

/-- C1: `close_switch` demands `!active` and then `is_expired`, but `is_expired`
returns `false` for every inactive record, so the two requirements are jointly
unsatisfiable: `close_switch` can never return `Ok`.  In particular the spec's
scenario (interval 60, last ping 0, deactivated, close at t = 61) fails with
`NotExpired` instead of succeeding, contradicting the function's own
documentation that closure works on a deactivated and expired switch. -/
theorem C1_close_never_succeeds :
    (∀ (s : DeadManSwitch) (now : Int) (r : SwitchClosed),
        close_switch s now ≠ .ok r) ∧
    close_switch demoInactive 61 = .error .NotExpired ∧
    close_switch demoActive 61 = .error .ActiveSwitch := by
  refine ⟨fun s now r h => ?_, rfl, rfl⟩
  by_cases ha : s.active = true
  · simp [close_switch, ha] at h
  · have hb : s.active = false := by
      revert ha; cases s.active <;> simp
    simp [close_switch, is_expired, hb] at h

/-- C4 counterexample: an active record whose deadline overflows `i64` is
reported NOT expired — `is_expired` maps the overflow case to `false`
(`map_or(false, ...)`), the opposite of the claimed fail-open behaviour. -/
theorem C4_counterexample :
    demoOverflow.active = true ∧
    checkedAdd demoOverflow.last_ping demoOverflow.ping_interval = none ∧
    is_expired demoOverflow 0 = false ∧
    check_expiration demoOverflow 0 = false := by
  refine ⟨rfl, by decide, by decide, by decide⟩

/-- C4 (amended): on deadline overflow the expiration query fails closed —
`is_expired` and `check_expiration` return `false`, treating the switch as not
expired. -/
theorem C4_overflow_fails_closed (s : DeadManSwitch) (now : Int)
    (hov : checkedAdd s.last_ping s.ping_interval = none) :
    is_expired s now = false ∧ check_expiration s now = false := by
  have h : is_expired s now = false := by
    unfold is_expired
    cases s.active <;> simp [hov]
  exact ⟨h, h⟩

theorem C4_overflow_fails_closed_witness :
    is_expired demoOverflow 0 = false ∧ check_expiration demoOverflow 0 = false :=
  C4_overflow_fails_closed demoOverflow 0 (by decide)

/-- C5: on an active record with stored ping time `now1`, a ping at
`now2 > now1` with representable new deadline succeeds, sets `last_ping` to
`now2`, and the emitted deadline is `now2 + ping_interval`; a ping at
`now2 ≤ now1` fails with `InvalidTimestamp` and the persisted record is
unchanged. -/
theorem C5_ping_advances (s : DeadManSwitch) (now1 now2 d : Int)
    (hact : s.active = true) (hlp : s.last_ping = now1) :
    (now1 < now2 → checkedAdd now2 s.ping_interval = some d →
      ping s now2 = .ok ({ s with last_ping := now2 },
        { owner := s.owner, next_required_ping := d, timestamp := now2 }) ∧
      d = now2 + s.ping_interval) ∧
    (now2 ≤ now1 →
      ping s now2 = .error .InvalidTimestamp ∧ persist s (ping s now2) = s) := by
  subst hlp
  constructor
  · intro h1 h2
    have hd : d = now2 + s.ping_interval := by
      unfold checkedAdd at h2
      split at h2
      · exact (Option.some.inj h2).symm
      · exact Option.noConfusion h2
    refine ⟨?_, hd⟩
    simp [ping, hact, h1, h2]
  · intro h2
    have hn : ¬ s.last_ping < now2 := by omega
    constructor <;> simp [ping, hact, hn, persist]

theorem C5_ping_advances_witness :
    (ping demoActive 10 = .ok ({ demoActive with last_ping := 10 },
        { owner := demoActive.owner, next_required_ping := 70, timestamp := 10 }) ∧
      (70 : Int) = 10 + demoActive.ping_interval) ∧
    (ping demoActive 0 = .error .InvalidTimestamp ∧
      persist demoActive (ping demoActive 0) = demoActive) :=
  ⟨(C5_ping_advances demoActive 0 10 70 rfl rfl).1 (by decide) (by decide),
   (C5_ping_advances demoActive 0 0 0 rfl rfl).2 (by decide)⟩

/-- C6: with `id > 0`, interval in `[60, 31536000]`, payload length in
`[1, 512]` and a representable deadline, `create_switch` succeeds and
`get_switch_info` reports `expiration_time = created_at + interval`; intervals
59 and 31536001 are rejected with `InvalidInterval`, an empty payload with
`EmptyData`, and a 513-byte payload with `DataTooLarge`. -/
theorem C6_create_valid (owner : Pubkey) (id : Nat) (interval : Int)
    (data : List Nat) (now exp : Int) (bump : Nat)
    (hid : 0 < id)
    (hiv : 60 ≤ interval ∧ interval ≤ 31536000)
    (hlen : 1 ≤ data.length ∧ data.length ≤ 512)
    (hexp : checkedAdd now interval = some exp) :
    (∃ s ev, create_switch owner id interval data now bump = .ok (s, ev) ∧
      (get_switch_info s now).expiration_time = s.created_at + interval) ∧
    create_switch owner id 59 data now bump = .error .InvalidInterval ∧
    create_switch owner id 31536001 data now bump = .error .InvalidInterval ∧
    create_switch owner id interval [] now bump = .error .EmptyData ∧
    (∀ big : List Nat, big.length = 513 →
      create_switch owner id interval big now bump = .error .DataTooLarge) := by
  obtain ⟨hiv1, hiv2⟩ := hiv
  obtain ⟨hl1, hl2⟩ := hlen
  have hb1 : MIN_PING_INTERVAL ≤ interval := by
    unfold MIN_PING_INTERVAL; omega
  have hb2 : interval ≤ MAX_PING_INTERVAL := by
    unfold MAX_PING_INTERVAL; omega
  have hne : data.isEmpty = false := by
    cases data with
    | nil => simp at hl1
    | cons a t => rfl
  have hexp2 : exp = now + interval := by
    unfold checkedAdd at hexp
    split at hexp
    · exact (Option.some.inj hexp).symm
    · exact Option.noConfusion hexp
  have hle : data.length ≤ MAX_DATA_SIZE := by
    unfold MAX_DATA_SIZE; omega
  refine ⟨?_, ?_, ?_, ?_, ?_⟩
  · refine ⟨{ owner := owner, last_ping := now, ping_interval := interval,
              encrypted_data :=
                data ++ List.replicate (MAX_DATA_SIZE - data.length) 0,
              data_length := data.length, created_at := now, active := true,
              bump := bump },
      { owner := owner, switch_id := id, ping_interval := interval,
        expiration_time := exp, timestamp := now }, ?_, ?_⟩
    · simp [create_switch, hid, hb1, hb2, hle, hne, hexp]
    · simp [get_switch_info, hexp, hexp2]
  · have : ¬ (MIN_PING_INTERVAL ≤ (59 : Int) ∧ (59 : Int) ≤ MAX_PING_INTERVAL) := by
      unfold MIN_PING_INTERVAL MAX_PING_INTERVAL; omega
    simp [create_switch, hid, this]
  · have : ¬ (MIN_PING_INTERVAL ≤ (31536001 : Int) ∧
        (31536001 : Int) ≤ MAX_PING_INTERVAL) := by
      unfold MIN_PING_INTERVAL MAX_PING_INTERVAL; omega
    simp [create_switch, hid, this]
  · simp [create_switch, hid, hb1, hb2, MAX_DATA_SIZE]
  · intro big hbig
    have : ¬ big.length ≤ MAX_DATA_SIZE := by
      unfold MAX_DATA_SIZE; omega
    simp [create_switch, hid, hb1, hb2, this]

theorem C6_create_valid_witness :
    (∃ s ev, create_switch 7 1 60 [1] 0 0 = .ok (s, ev) ∧
      (get_switch_info s 0).expiration_time = s.created_at + 60) ∧
    create_switch 7 1 59 [1] 0 0 = .error .InvalidInterval ∧
    create_switch 7 1 31536001 [1] 0 0 = .error .InvalidInterval ∧
    create_switch 7 1 60 [] 0 0 = .error .EmptyData ∧
    (∀ big : List Nat, big.length = 513 →
      create_switch 7 1 60 big 0 0 = .error .DataTooLarge) :=
  C6_create_valid 7 1 60 [1] 0 60 0 (by decide) (by decide) (by decide) (by decide)

/-- C7: operations are atomic on failure — any `ping` error leaves the
persisted record unchanged, and in particular a `ping` whose new deadline
overflows fails with `TimeOverflow` without touching `last_ping` (the Anchor
runtime reverts the in-handler write when `Err` is returned). -/
theorem C7_ping_atomic :
    (∀ (s : DeadManSwitch) (now : Int) (e : ErrorCode),
        ping s now = .error e → persist s (ping s now) = s) ∧
    (∀ (s : DeadManSwitch) (now : Int),
        s.active = true → s.last_ping < now →
        checkedAdd now s.ping_interval = none →
        ping s now = .error .TimeOverflow ∧ persist s (ping s now) = s) := by
  constructor
  · intro s now e h
    simp [persist, h]
  · intro s now hact hlt hov
    have h : ping s now = .error .TimeOverflow := by
      simp [ping, hact, hlt, hov]
    exact ⟨h, by simp [persist, h]⟩

theorem C7_ping_atomic_witness :
    (ping demoMaxInterval 1 = .error .TimeOverflow ∧
      persist demoMaxInterval (ping demoMaxInterval 1) = demoMaxInterval) ∧
    persist demoActive (ping demoActive 0) = demoActive :=
  ⟨C7_ping_atomic.2 demoMaxInterval 1 rfl (by decide) (by decide),
   C7_ping_atomic.1 demoActive 0 .InvalidTimestamp rfl⟩

/-- C8 counterexample: a valid, active, already-expired record (interval 60,
last ping 0) pinged at `now = i64Max` satisfies `now > last_ping` yet the ping
fails with `TimeOverflow`, so "succeeds whenever now > last_ping" is false as
stated. -/
theorem C8_counterexample :
    demoActive.active = true ∧
    is_expired demoActive i64Max = true ∧
    demoActive.last_ping < i64Max ∧
    ping demoActive i64Max = .error .TimeOverflow := by
  refine ⟨rfl, by decide, by decide, rfl⟩

/-- C8 (amended): a ping on an active record succeeds whenever
`now > last_ping` AND the new deadline `now + ping_interval` is representable,
resetting `last_ping` to `now`; the revived record is no longer expired at
`now` (for the nonnegative intervals every created record has); and `ping`
never fails with an expiry-style error — its only errors are
`InactiveSwitch`, `InvalidTimestamp` and `TimeOverflow`. -/
theorem C8_ping_revives :
    (∀ (s : DeadManSwitch) (now d : Int),
        s.active = true → s.last_ping < now →
        checkedAdd now s.ping_interval = some d →
        (∃ ev, ping s now = .ok ({ s with last_ping := now }, ev)) ∧
        (0 ≤ s.ping_interval →
          is_expired { s with last_ping := now } now = false)) ∧
    (∀ (s : DeadManSwitch) (now : Int) (e : ErrorCode),
        ping s now = .error e →
        e = .InactiveSwitch ∨ e = .InvalidTimestamp ∨ e = .TimeOverflow) := by
  constructor
  · intro s now d hact hlt hd
    constructor
    · exact ⟨{ owner := s.owner, next_required_ping := d, timestamp := now },
        by simp [ping, hact, hlt, hd]⟩
    · intro hnn
      have hdv : d = now + s.ping_interval := by
        unfold checkedAdd at hd
        split at hd
        · exact (Option.some.inj hd).symm
        · exact Option.noConfusion hd
      simp only [is_expired, hact]
      simp [hd, hdv]
      omega
  · intro s now e h
    by_cases ha : s.active = true
    · by_cases hl : s.last_ping < now
      · cases hc : checkedAdd now s.ping_interval with
        | none =>
          simp [ping, ha, hl, hc] at h
          subst h
          simp
        | some d =>
          simp [ping, ha, hl, hc] at h
      · simp [ping, ha, hl] at h
        subst h
        simp
    · simp [ping, ha] at h
      subst h
      simp

theorem C8_ping_revives_witness :
    ((∃ ev, ping demoActive 100 = .ok ({ demoActive with last_ping := 100 }, ev)) ∧
      (0 ≤ demoActive.ping_interval →
        is_expired { demoActive with last_ping := 100 } 100 = false)) ∧
    (ErrorCode.InactiveSwitch = .InactiveSwitch ∨
      ErrorCode.InactiveSwitch = .InvalidTimestamp ∨
      ErrorCode.InactiveSwitch = .TimeOverflow) :=
  ⟨C8_ping_revives.1 demoActive 100 160 rfl (by decide) (by decide),
   C8_ping_revives.2 demoInactive 0 .InactiveSwitch rfl⟩

/-- C9: a caller whose principal differs from `record.owner` is rejected by the
`has_one = owner` account constraint of `Ping`, `DeactivateSwitch` and
`CloseSwitch`, whatever the record's state. -/
theorem C9_unauthorized_rejected (s : DeadManSwitch) (caller : Pubkey)
    (now : Int) (h : s.owner ≠ caller) :
    pingIx s caller now = .error .ConstraintHasOne ∧
    deactivateIx s caller now = .error .ConstraintHasOne ∧
    closeIx s caller now = .error .ConstraintHasOne := by
  refine ⟨?_, ?_, ?_⟩ <;> simp [pingIx, deactivateIx, closeIx, h]

theorem C9_unauthorized_rejected_witness :
    pingIx demoActive 8 0 = .error .ConstraintHasOne ∧
    deactivateIx demoActive 8 0 = .error .ConstraintHasOne ∧
    closeIx demoActive 8 0 = .error .ConstraintHasOne :=
  C9_unauthorized_rejected demoActive 8 0 (by decide)

/-- C10: `ping` and `deactivate_switch` leave `owner`, `ping_interval`,
`created_at`, `encrypted_data` and `data_length` unchanged (so the interval
bound `[60, 31536000]` is preserved), the read-only queries return values
without producing a record, and every record produced by `create_switch` has
`ping_interval` within `[60, 31536000]`. -/
theorem C10_immutable_fields :
    (∀ (s sNew : DeadManSwitch) (now : Int) (ev : SwitchPinged),
        ping s now = .ok (sNew, ev) →
        sNew.owner = s.owner ∧ sNew.ping_interval = s.ping_interval ∧
        sNew.created_at = s.created_at ∧
        sNew.encrypted_data = s.encrypted_data ∧
        sNew.data_length = s.data_length) ∧
    (∀ (s sNew : DeadManSwitch) (now : Int) (ev : SwitchDeactivated),
        deactivate_switch s now = .ok (sNew, ev) →
        sNew.owner = s.owner ∧ sNew.ping_interval = s.ping_interval ∧
        sNew.created_at = s.created_at ∧
        sNew.encrypted_data = s.encrypted_data ∧
        sNew.data_length = s.data_length) ∧
    (∀ (owner : Pubkey) (id : Nat) (interval : Int) (data : List Nat)
        (now : Int) (bump : Nat) (sNew : DeadManSwitch) (ev : SwitchCreated),
        create_switch owner id interval data now bump = .ok (sNew, ev) →
        60 ≤ sNew.ping_interval ∧ sNew.ping_interval ≤ 31536000) := by
  refine ⟨?_, ?_, ?_⟩
  · intro s sNew now ev h
    by_cases ha : s.active = true
    · by_cases hl : s.last_ping < now
      · cases hc : checkedAdd now s.ping_interval with
        | none => simp [ping, ha, hl, hc] at h
        | some d =>
          simp [ping, ha, hl, hc] at h
          obtain ⟨h1, h2⟩ := h
          subst h1
          exact ⟨rfl, rfl, rfl, rfl, rfl⟩
      · simp [ping, ha, hl] at h
    · simp [ping, ha] at h
  · intro s sNew now ev h
    by_cases ha : s.active = true
    · simp [deactivate_switch, ha] at h
      obtain ⟨h1, h2⟩ := h
      subst h1
      exact ⟨rfl, rfl, rfl, rfl, rfl⟩
    · simp [deactivate_switch, ha] at h
  · intro owner id interval data now bump sNew ev h
    by_cases h0 : 0 < id
    · by_cases h1 : MIN_PING_INTERVAL ≤ interval ∧ interval ≤ MAX_PING_INTERVAL
      · by_cases h2 : data.length ≤ MAX_DATA_SIZE
        · by_cases h3 : data.isEmpty = true
          · simp [create_switch, h0, h1, h2, h3] at h
          · cases hc : checkedAdd now interval with
            | none => simp [create_switch, h0, h1, h2, h3, hc] at h
            | some d =>
              simp [create_switch, h0, h1, h2, h3, hc] at h
              obtain ⟨h4, h5⟩ := h
              subst h4
              unfold MIN_PING_INTERVAL MAX_PING_INTERVAL at h1
              exact ⟨h1.1, h1.2⟩
        · simp [create_switch, h0, h1, h2] at h
      · simp [create_switch, h0, h1] at h
    · simp [create_switch, h0] at h

theorem C10_immutable_fields_witness :
    (({ demoActive with last_ping := 10 } : DeadManSwitch).owner = demoActive.owner ∧
      ({ demoActive with last_ping := 10 } : DeadManSwitch).ping_interval =
        demoActive.ping_interval ∧
      ({ demoActive with last_ping := 10 } : DeadManSwitch).created_at =
        demoActive.created_at ∧
      ({ demoActive with last_ping := 10 } : DeadManSwitch).encrypted_data =
        demoActive.encrypted_data ∧
      ({ demoActive with last_ping := 10 } : DeadManSwitch).data_length =
        demoActive.data_length) ∧
    (demoInactive.owner = demoActive.owner ∧
      demoInactive.ping_interval = demoActive.ping_interval ∧
      demoInactive.created_at = demoActive.created_at ∧
      demoInactive.encrypted_data = demoActive.encrypted_data ∧
      demoInactive.data_length = demoActive.data_length) ∧
    (60 ≤ demoCreated.ping_interval ∧ demoCreated.ping_interval ≤ 31536000) :=
  ⟨C10_immutable_fields.1 demoActive { demoActive with last_ping := 10 } 10
      { owner := demoActive.owner, next_required_ping := 70, timestamp := 10 } rfl,
   C10_immutable_fields.2.1 demoActive demoInactive 5 { timestamp := 5 } rfl,
   C10_immutable_fields.2.2 7 1 60 [1] 0 0 demoCreated
      { owner := 7, switch_id := 1, ping_interval := 60, expiration_time := 60,
        timestamp := 0 } rfl⟩

end DeadMansSwitch
